import Mathlib

/-!
# Verification of the eassy-to-rent listing backend

A shallow embedding of the listing resolution, query-building and rating
aggregation logic of the rental-listing backend, together with theorems about
it.  The definitions translate the JavaScript/Mongoose source:

* the single-listing resolver `GET /api/pg/:id` (server variant `part_001`,
  lines 526–648);
* the list/search endpoint `GET /api/pg` with filter composition and
  pagination (same file, lines 721–812);
* listing create `POST /api/pg` (lines 857–947) and update `PUT /api/pg/:id`
  (lines 988–1069);
* the review routes (`part_005`) and the rating-aggregation hooks of
  `src/models/Review.js`;
* the API-key middleware with its public-route allow list (lines 166–211).

The document store is modelled as a `List` of documents in natural order:
`findOne`/`findById` are `List.find?`, `countDocuments` is a filtered length,
and `find().sort().skip().limit()` is a stable sort followed by `drop`/`take`.
Mongoose behaviours that the handlers depend on are modelled explicitly and
documented at the relevant definitions: schema `strict` mode drops paths that
are not declared in the schema (`PGListing` declares no `slug` path), a filter
on a field that no stored document has matches nothing (Mongoose's current
`strictQuery:false` default), and casting a string that is not a valid
ObjectId (24 hex characters, or a 12-character string) to `_id` makes the
query fail with a `CastError`.
-/

namespace EassyToRent

/-- Characters matched by the JavaScript regex class `\s` (ASCII part). -/
def isJsSpace (c : Char) : Bool :=
  c == ' ' || c == '\t' || c == '\n' || c == '\x0d' || c == '\x0b' || c == '\x0c'

/-- Hexadecimal digit, as in the handler's `/^[0-9a-fA-F]{24}$/` test. -/
def isHexDigit (c : Char) : Bool :=
  c.isDigit || ('a' ≤ c && c ≤ 'f') || ('A' ≤ c && c ≤ 'F')

/-- JavaScript regex `\w`: letters, digits and underscore. -/
def isWordChar (c : Char) : Bool :=
  c.isAlphanum || c == '_'

/-- `String.prototype.toLowerCase` (ASCII part). -/
def lowerStr (s : String) : String :=
  ⟨s.data.map Char.toLower⟩

/-- `String.prototype.trim`: strip leading and trailing whitespace. -/
def jsTrim (s : String) : String :=
  ⟨((s.data.dropWhile isJsSpace).reverse.dropWhile isJsSpace).reverse⟩

/-- `needle` occurs as a contiguous sublist of `hay`. -/
def containsSub (hay needle : List Char) : Bool :=
  needle.isPrefixOf hay ||
    match hay with
    | [] => false
    | _ :: t => containsSub t needle

/-- Case-insensitive substring test: the semantics of the Mongo filter
`{ field: { $regex: needle, $options: 'i' } }` for a `needle` made of
characters that regexes treat literally. -/
def ciContains (hay needle : String) : Bool :=
  containsSub (hay.data.map Char.toLower) (needle.data.map Char.toLower)

/-- Inputs whose characters carry no regex metacharacter meaning (the
handlers interpolate the raw input into `$regex` patterns; the embedding is
faithful for such inputs). -/
def regexLiteral (s : String) : Bool :=
  s.data.all (fun c => c.isAlphanum || c == ' ' || c == '-')

/-- The test gating resolver strategy 1:
`mongoose.Types.ObjectId.isValid(id) && /^[0-9a-fA-F]{24}$/.test(id)`.
The regex conjunct makes the whole test equivalent to "24 hex characters". -/
def is24Hex (s : String) : Bool :=
  s.data.length == 24 && s.data.all isHexDigit

/-- `mongoose.Types.ObjectId.isValid`: 24 hex characters, or any string of
12 characters (interpreted as 12 bytes). -/
def objectIdValid (s : String) : Bool :=
  is24Hex s || s.data.length == 12

/-- Strings that Mongoose can cast to an ObjectId when they appear as an
`_id` value in a query filter.  A filter value failing this cast makes the
query reject with a `CastError` instead of returning results. -/
def castableObjectId (s : String) : Bool :=
  objectIdValid s

/-- A stored PG listing document, with the fields declared by
`src/models/PGListing.js` (plus `id` for `_id` and `createdAt` for the
timestamp).  `slug` is `Option`al because the schema declares **no** `slug`
path: no write path can persist one, so stored documents have `slug = none`;
the field is kept so that the resolver's slug lookup can be stated. -/
structure Listing where
  id : String
  slug : Option String := none
  name : String
  description : String := ""
  city : String := ""
  locality : String := ""
  address : String := ""
  price : ℚ := 0
  type : String := "boys"
  images : List String := []
  gallery : List String := []
  googleMapLink : String := ""
  amenities : List String := []
  roomTypes : List String := ["Single", "Double"]
  distance : String := ""
  availability : String := "available"
  published : Bool := false
  verified : Bool := false
  featured : Bool := false
  rating : ℚ := 0
  reviewCount : ℚ := 0
  ownerName : String := ""
  ownerPhone : String := ""
  ownerEmail : String := ""
  ownerId : String := ""
  contactEmail : String := ""
  contactPhone : String := ""
  location : ℚ × ℚ := (0, 0)
  createdAt : ℕ := 0
deriving Repr, DecidableEq

/-! ## Listing resolver (`GET /api/pg/:id`, part_001 lines 526–648) -/

/-- One token of the pattern that strategy 3 builds.  The handler runs
`id.replace(/[-\s]/g, '[-\s]?')`; in a JavaScript string literal `'[-\s]?'`
the unrecognized escape `\s` is just `s`, so every space or hyphen of the
input becomes the regex fragment `[-s]?`: an *optional hyphen-or-letter-s*,
not an optional space-or-hyphen.  All other characters are literals. -/
inductive PatTok where
  | lit (c : Char)
  | optHS
deriving Repr, DecidableEq

/-- The token list of strategy 3's pattern `^…$` for a given input. -/
def strat3Pattern (id : String) : List PatTok :=
  id.data.map fun c => if c == '-' || isJsSpace c then .optHS else .lit c

/-- Anchored, case-insensitive matching of a strategy-3 pattern against a
name.  `optHS` (the fragment `[-s]?` under the `i` flag) consumes nothing, a
hyphen, or a letter `s`/`S`. -/
def patMatch : List PatTok → List Char → Bool
  | [], cs => cs.isEmpty
  | .lit _ :: _, [] => false
  | .lit c :: ts, d :: ds => (c.toLower == d.toLower) && patMatch ts ds
  | .optHS :: ts, ds =>
      patMatch ts ds ||
      (match ds with
       | [] => false
       | d :: ds' => (d == '-' || d.toLower == 's') && patMatch ts ds')

/-- The `$or` predicate of resolver strategy 4 (case-insensitive substring on
name, address, city, locality, plus raw `_id` equality). -/
def broadPred (id : String) (l : Listing) : Bool :=
  ciContains l.name id || ciContains l.address id || ciContains l.city id ||
    ciContains l.locality id || l.id == id

/-- Which strategy produced the hit (the handler's `foundBy` tag). -/
inductive FoundBy where
  | objectId
  | slug
  | name
  | broad
deriving Repr, DecidableEq

/-- Outcome of `GET /api/pg/:id`: 400 for missing/`undefined`/`null` ids,
500 with "Database not connected" when disconnected, 200 with the listing and
its `foundBy` tag, 404 after all strategies miss, and 500 "Server error" when
a strategy's query rejects (the `catch` branch).  The 404 branch's debug
sample of existing listings is not modelled. -/
inductive ResolveResult where
  | invalidArg
  | dbDown
  | found (listing : Listing) (via : FoundBy)
  | notFound
  | serverError
deriving Repr, DecidableEq

/-- The resolver of `GET /api/pg/:id` (part_001 lines 526–648).  Strategies
run in order, short-circuiting on the first hit:

1. `findById(id)`, only when the 24-hex gate passes;
2. `findOne({slug: id})`;
3. `findOne({name: {$regex: ^…$, $options:'i'}})` with the pattern of
   `strat3Pattern`;
4. `findOne({$or: [name/address/city/locality regexes, {_id: id}]})` — before
   this query can run, Mongoose must cast the `_id` branch, so an uncastable
   `id` rejects the query (`CastError`) and the handler lands in its `catch`,
   answering 500. -/
def getPgById (rawId : String) (connected : Bool) (db : List Listing) :
    ResolveResult :=
  if rawId == "" || rawId == "undefined" || rawId == "null" then .invalidArg
  else if !connected then .dbDown
  else
    let id := jsTrim rawId
    match (if is24Hex id then db.find? (fun l => l.id == id) else none) with
    | some l => .found l .objectId
    | none =>
      match db.find? (fun l => l.slug == some id) with
      | some l => .found l .slug
      | none =>
        match db.find? (fun l => patMatch (strat3Pattern id) l.name.data) with
        | some l => .found l .name
        | none =>
          if castableObjectId id then
            match db.find? (fun l => broadPred id l) with
            | some l => .found l .broad
            | none => .notFound
          else .serverError

example :
    getPgById "aaaaaaaaaaaaaaaaaaaaaaaa" true
      [{ id := "aaaaaaaaaaaaaaaaaaaaaaaa", name := "Royal Boys PG" }] =
    .found { id := "aaaaaaaaaaaaaaaaaaaaaaaa", name := "Royal Boys PG" }
      .objectId := by decide

example :
    getPgById "pg" true
      [{ id := "aaaaaaaaaaaaaaaaaaaaaaaa", name := "Royal Boys PG" }] =
    .serverError := by decide

/-! ## Listing query builder (`GET /api/pg`, part_001 lines 721–812) -/

/-- The recognized query parameters of `GET /api/pg`.  `Option` models an
absent parameter; an empty string models the empty (falsy) value for the
string parameters.  `minPrice?`/`maxPrice?` hold the already `Number()`-coerced
bound of a supplied (truthy) parameter. -/
structure ListQuery where
  page : ℕ := 1
  limit : ℕ := 10
  type? : Option String := none
  city? : Option String := none
  search? : Option String := none
  minPrice? : Option ℚ := none
  maxPrice? : Option ℚ := none
  sortBy : String := "createdAt"
  sortOrder : String := "desc"
  admin? : Option String := none
deriving Repr, DecidableEq

/-- The composed Mongo filter of `GET /api/pg`, as a predicate on stored
documents:

* `type`, when supplied, non-empty and not `"all"`, matches exactly;
* `city`, when supplied and non-empty, matches as case-insensitive substring;
* `search`, when supplied and non-empty, matches name OR address OR city OR
  description as case-insensitive substring;
* supplied price bounds are inclusive;
* unless `admin === 'true'`, the filter `published: true` is added. -/
def matchesQuery (q : ListQuery) (l : Listing) : Bool :=
  (match q.type? with
   | none => true
   | some t => if t == "" || t == "all" then true else l.type == t) &&
  (match q.city? with
   | none => true
   | some c => if c == "" then true else ciContains l.city c) &&
  (match q.search? with
   | none => true
   | some s =>
       if s == "" then true
       else ciContains l.name s || ciContains l.address s ||
         ciContains l.city s || ciContains l.description s) &&
  (match q.minPrice? with
   | none => true
   | some m => decide (m ≤ l.price)) &&
  (match q.maxPrice? with
   | none => true
   | some m => decide (l.price ≤ m)) &&
  (if q.admin? == some "true" then true else l.published)

/-- Ascending comparison on the sort field named by `sortBy`; an unknown
field name sorts by creation time, the store's insertion order here. -/
def sortKeyLE (sortBy : String) (a b : Listing) : Bool :=
  match sortBy with
  | "price" => decide (a.price ≤ b.price)
  | "rating" => decide (a.rating ≤ b.rating)
  | "name" => decide (a.name ≤ b.name)
  | _ => decide (a.createdAt ≤ b.createdAt)

/-- The handler's sort direction: `sortOrder === 'desc' ? -1 : 1`. -/
def sortLE (q : ListQuery) (a b : Listing) : Bool :=
  if q.sortOrder == "desc" then sortKeyLE q.sortBy b a else sortKeyLE q.sortBy a b

/-- Insert into a sorted list, after all elements that compare before-or-equal
(stable). -/
def insertLe (le : α → α → Bool) (a : α) : List α → List α
  | [] => [a]
  | b :: bs => if le a b then a :: b :: bs else b :: insertLe le a bs

/-- Stable sort (model of the store's `sort()`). -/
def sortWith (le : α → α → Bool) (l : List α) : List α :=
  l.foldr (insertLe le) []

/-- `Math.ceil(total / limit)` on naturals. -/
def ceilNat (total limit : ℕ) : ℕ :=
  (total + limit - 1) / limit

/-- The pagination metadata block of the `GET /api/pg` response. -/
structure Pagination where
  currentPage : ℕ
  totalPages : ℕ
  totalItems : ℕ
  itemsPerPage : ℕ
  hasNextPage : Bool
  hasPrevPage : Bool
deriving Repr, DecidableEq

/-- Outcome of a `GET /api/pg` request (including the API-key gate's
rejections, which in fact never fire for this path). -/
inductive ListResponse where
  | ok (data : List Listing) (pagination : Pagination)
  | dbDown
  | unauthorized
  | forbidden
deriving Repr, DecidableEq

/-- The `GET /api/pg` handler: compose the filter, count the matching
documents, and return the sorted page `skip = (page-1)*limit`, `limit` items,
with pagination metadata. -/
def getPgList (q : ListQuery) (connected : Bool) (db : List Listing) :
    ListResponse :=
  if !connected then .dbDown
  else
    let matching := db.filter (matchesQuery q)
    let total := matching.length
    let totalPages := ceilNat total q.limit
    let skip := (q.page - 1) * q.limit
    let listings := ((sortWith (sortLE q) matching).drop skip).take q.limit
    .ok listings
      { currentPage := q.page
        totalPages := totalPages
        totalItems := total
        itemsPerPage := q.limit
        hasNextPage := decide (q.page < totalPages)
        hasPrevPage := decide (q.page > 1) }

/-! ## API-key middleware (part_001 lines 166–211) -/

/-- Token of a route pattern: the middleware turns a route containing `:name`
parameters into the regex `^…\w+…$`. -/
inductive RTok where
  | lit (c : Char)
  | wplus
deriving Repr, DecidableEq

/-- Tokenize `route.replace(/:\w+/g, '\\w+')` (fuelled to stay structural;
the fuel `cs.length` always suffices, each step consumes a character). -/
def routeTokensAux : ℕ → List Char → List RTok
  | 0, _ => []
  | _ + 1, [] => []
  | n + 1, ':' :: cs =>
      if (cs.takeWhile isWordChar).isEmpty then .lit ':' :: routeTokensAux n cs
      else .wplus :: routeTokensAux n (cs.dropWhile isWordChar)
  | n + 1, c :: cs => .lit c :: routeTokensAux n cs

def routeTokens (route : String) : List RTok :=
  routeTokensAux route.data.length route.data

/-- Anchored matching of a tokenized route pattern against a path; `wplus`
(`\w+`) consumes one or more word characters, with backtracking.  The fuel
`ts.length + ps.length + 1` suffices: every step consumes a token or a
character. -/
def rtokMatchAux : ℕ → List RTok → List Char → Bool
  | 0, _, _ => false
  | _ + 1, [], [] => true
  | _ + 1, [], _ :: _ => false
  | _ + 1, .lit _ :: _, [] => false
  | n + 1, .lit c :: ts, p :: ps => c == p && rtokMatchAux n ts ps
  | _ + 1, .wplus :: _, [] => false
  | n + 1, .wplus :: ts, p :: ps =>
      isWordChar p && (rtokMatchAux n ts ps || rtokMatchAux n (.wplus :: ts) ps)

/-- `new RegExp('^' + route.replace(/:\w+/g, '\\w+') + '$').test(path)`. -/
def routePatternTest (route path : String) : Bool :=
  rtokMatchAux (route.data.length + path.data.length + 1) (routeTokens route)
    path.data

/-- The middleware's allow list of public routes. -/
def publicRoutes : List String :=
  ["/", "/health", "/api/test", "/api/pg", "/api/pg/:id", "/api/search",
   "/api/stats", "/api/db-test"]

/-- `isPublicRoute`: exact path equality, except for routes with `:` params,
which match via the derived regex. -/
def isPublicRoute (path : String) : Bool :=
  publicRoutes.any fun route =>
    if route.data.contains ':' then routePatternTest route path
    else path == route

/-- Outcome of the API-key middleware for one request. -/
inductive GateResult where
  | proceed
  | missingKey
  | badKey
deriving Repr, DecidableEq

/-- The API-key middleware: public routes skip the check entirely; otherwise
a missing key answers 401 and a wrong key answers 403.  `key` is the
credential the middleware reads (`x-api-key` header, falling back to the
`api_key` query parameter); `none` models an absent (or empty, falsy) key. -/
def apiKeyGate (path : String) (key : Option String) (configKey : String) :
    GateResult :=
  if isPublicRoute path then .proceed
  else
    match key with
    | none => .missingKey
    | some k => if k == configKey then .proceed else .badKey

/-- A full `GET /api/pg` request: the API-key middleware runs first, then the
listing handler (which reads nothing but the query parameters and the
store). -/
def handlePgList (q : ListQuery) (key : Option String) (configKey : String)
    (connected : Bool) (db : List Listing) : ListResponse :=
  match apiKeyGate "/api/pg" key configKey with
  | .proceed => getPgList q connected db
  | .missingKey => .unauthorized
  | .badKey => .forbidden

/-! ## Listing create and update (part_001 lines 857–947 and 988–1069) -/

/-- Collapse runs of hyphens to a single hyphen (the slug chain's final
`replace` with the regex "one or more hyphens"). -/
def collapseHyphens : List Char → List Char
  | [] => []
  | [c] => [c]
  | c :: d :: cs =>
      if c == '-' && d == '-' then collapseHyphens (d :: cs)
      else c :: collapseHyphens (d :: cs)

/-- The slug derivation of `POST /api/pg`: lowercase the name, turn
whitespace into hyphens, delete everything that is not `a-z`, `0-9` or a
hyphen, and collapse hyphen runs.
Replacing each whitespace character by one hyphen and collapsing hyphen runs
at the end gives the same result as replacing whole whitespace runs, because
the middle step only ever deletes characters, which merges hyphen runs that
the final step collapses anyway. -/
def genSlug (name : String) : String :=
  ⟨collapseHyphens
    (((lowerStr name).data.map fun c => if isJsSpace c then '-' else c).filter
      fun c => c.isLower || c.isDigit || c == '-')⟩

/-- The JSON body of a listing create or update request, with every field the
handlers read.  `Option` models an absent property; for the fields the create
handler defaults with `||`, the empty string / `0` behaves like absence. -/
structure ListingBody where
  name? : Option String := none
  slug? : Option String := none
  description? : Option String := none
  city? : Option String := none
  locality? : Option String := none
  address? : Option String := none
  price? : Option ℚ := none
  type? : Option String := none
  images? : Option (List String) := none
  gallery? : Option (List String) := none
  googleMapLink? : Option String := none
  amenities? : Option (List String) := none
  roomTypes? : Option (List String) := none
  distance? : Option String := none
  availability? : Option String := none
  location? : Option (ℚ × ℚ) := none
  published? : Option Bool := none
  verified? : Option Bool := none
  featured? : Option Bool := none
  rating? : Option ℚ := none
  reviewCount? : Option ℚ := none
  ownerName? : Option String := none
  ownerPhone? : Option String := none
  ownerEmail? : Option String := none
  ownerId? : Option String := none
  contactEmail? : Option String := none
  contactPhone? : Option String := none
deriving Repr, DecidableEq

/-- The `PGListing` schema validators that `save()` runs on a new document:
required non-empty (trimmed) name and city, `price ≥ 0`, the `type`,
`availability` and `roomTypes` enums, and `0 ≤ rating ≤ 5`. -/
def validListing (l : Listing) : Bool :=
  !(jsTrim l.name == "") && !(jsTrim l.city == "") && decide (0 ≤ l.price) &&
    (["boys", "girls", "co-ed", "family"] : List String).contains l.type &&
    (["available", "sold-out", "coming-soon"] : List String).contains
      l.availability &&
    l.roomTypes.all (fun t =>
      (["Single", "Double", "Triple", "Suite"] : List String).contains t) &&
    decide (0 ≤ l.rating) && decide (l.rating ≤ 5)

/-- Outcome of `POST /api/pg`. -/
inductive CreateResult where
  | dbDown
  | missingName
  | missingPrice
  | failed
  | created (l : Listing)
deriving Repr, DecidableEq

/-- The `POST /api/pg` handler.  It 400s on a missing (falsy) name or price,
derives `genSlug name`, and saves a document built from the body with the
handler's defaults — including `rating: req.body.rating || 0` and
`reviewCount: req.body.reviewCount || 0`, both client-controlled.  The
derived slug is put into `listingData`, but the `PGListing` schema declares
no `slug` path, so Mongoose's `strict` mode (the default) silently drops it:
the stored document has no slug.  `newId` is the store-assigned id and `now`
the creation timestamp. -/
def createPg (body : ListingBody) (newId : String) (now : ℕ)
    (connected : Bool) : CreateResult :=
  if !connected then .dbDown
  else if body.name?.getD "" == "" then .missingName
  else if body.price?.getD 0 == 0 then .missingPrice
  else
    let stored : Listing :=
      { id := newId
        slug := none
        name := jsTrim (body.name?.getD "")
        description := body.description?.getD ""
        city := jsTrim (body.city?.getD "Chandigarh")
        locality := body.locality?.getD ""
        address := body.address?.getD ""
        price := body.price?.getD 0
        type := body.type?.getD "boys"
        images := body.images?.getD []
        gallery := body.gallery?.getD []
        googleMapLink := body.googleMapLink?.getD ""
        amenities := body.amenities?.getD []
        roomTypes := body.roomTypes?.getD ["Single", "Double"]
        distance := body.distance?.getD ""
        availability := body.availability?.getD "available"
        location := body.location?.getD (0, 0)
        published := body.published?.getD true
        verified := body.verified?.getD false
        featured := body.featured?.getD false
        rating := body.rating?.getD 0
        reviewCount := body.reviewCount?.getD 0
        ownerName := body.ownerName?.getD ""
        ownerPhone := body.ownerPhone?.getD "9315058665"
        ownerEmail := body.ownerEmail?.getD ""
        ownerId := body.ownerId?.getD ""
        contactEmail := body.contactEmail?.getD ""
        contactPhone := body.contactPhone?.getD "9315058665"
        createdAt := now }
    if validListing stored then .created stored else .failed

/-- The per-field copy of `PUT /api/pg/:id`: every allow-listed field present
in the body is `$set` on the document (`Number()`-coercion of price, rating
and reviewCount and `Boolean()`-coercion of the flags are reflected in the
body's field types).  The allow list contains `slug`, and the handler also
re-derives a slug when the name changes, but the schema declares no `slug`
path, so `strict` mode drops that `$set` path and the stored document keeps
no slug either way. -/
def applyUpdateData (l : Listing) (b : ListingBody) : Listing :=
  { l with
    name := match b.name? with | some n => jsTrim n | none => l.name
    description := b.description?.getD l.description
    city := match b.city? with | some c => jsTrim c | none => l.city
    locality := b.locality?.getD l.locality
    address := b.address?.getD l.address
    price := b.price?.getD l.price
    type := b.type?.getD l.type
    images := b.images?.getD l.images
    gallery := b.gallery?.getD l.gallery
    googleMapLink := b.googleMapLink?.getD l.googleMapLink
    amenities := b.amenities?.getD l.amenities
    roomTypes := b.roomTypes?.getD l.roomTypes
    distance := b.distance?.getD l.distance
    availability := b.availability?.getD l.availability
    location := b.location?.getD l.location
    published := b.published?.getD l.published
    verified := b.verified?.getD l.verified
    featured := b.featured?.getD l.featured
    rating := b.rating?.getD l.rating
    reviewCount := b.reviewCount?.getD l.reviewCount
    ownerName := b.ownerName?.getD l.ownerName
    ownerPhone := b.ownerPhone?.getD l.ownerPhone
    ownerEmail := b.ownerEmail?.getD l.ownerEmail
    ownerId := b.ownerId?.getD l.ownerId
    contactEmail := b.contactEmail?.getD l.contactEmail
    contactPhone := b.contactPhone?.getD l.contactPhone }

/-- The update validators of `findByIdAndUpdate(..., {runValidators: true})`,
which check exactly the `$set` paths. -/
def validUpdate (b : ListingBody) : Bool :=
  (match b.name? with | some n => !(jsTrim n == "") | none => true) &&
  (match b.city? with | some c => !(jsTrim c == "") | none => true) &&
  (match b.price? with | some p => decide (0 ≤ p) | none => true) &&
  (match b.type? with
   | some t => (["boys", "girls", "co-ed", "family"] : List String).contains t
   | none => true) &&
  (match b.availability? with
   | some a =>
       (["available", "sold-out", "coming-soon"] : List String).contains a
   | none => true) &&
  (match b.roomTypes? with
   | some ts => ts.all (fun t =>
       (["Single", "Double", "Triple", "Suite"] : List String).contains t)
   | none => true) &&
  (match b.rating? with
   | some r => decide (0 ≤ r) && decide (r ≤ 5)
   | none => true)

/-- Outcome of `PUT /api/pg/:id`. -/
inductive UpdateResult where
  | dbDown
  | invalidId
  | notFound
  | failed
  | updated (l : Listing) (db : List Listing)
deriving Repr, DecidableEq

/-- The `PUT /api/pg/:id` handler: 400 unless
`mongoose.Types.ObjectId.isValid` accepts the id, 404 when no listing has it,
then `$set` of the allow-listed body fields with update validators. -/
def updatePg (lid : String) (b : ListingBody) (connected : Bool)
    (db : List Listing) : UpdateResult :=
  if !connected then .dbDown
  else if !objectIdValid lid then .invalidId
  else
    match db.find? (fun l => l.id == lid) with
    | none => .notFound
    | some l =>
        if validUpdate b then
          let updated := applyUpdateData l b
          .updated updated (db.map fun x => if x.id == lid then updated else x)
        else .failed

/-! ## Reviews and the rating aggregator (part_005 and `src/models/Review.js`) -/

/-- A stored review document (`reviewSchema`): the referencing user and
listing, a 1–5 rating, title, comment and likes (replies omitted — no claim
touches them). -/
structure Review where
  id : String
  user : String
  pgListing : String
  rating : ℚ
  title : String := ""
  comment : String := ""
  likes : ℚ := 0
deriving Repr, DecidableEq

/-- Floor of a rational, written out on numerator and denominator so that it
evaluates inside the kernel. -/
def ratFloor (q : ℚ) : ℤ :=
  q.num / (q.den : ℤ)

/-- Round half up: `⌊q + 1/2⌋`.  For the non-negative values a review average
can take this is what `toFixed` does. -/
def jsRound (q : ℚ) : ℤ :=
  ratFloor (q + 1 / 2)

/-- `Number.prototype.toFixed(1)` followed by `parseFloat`: round to one
decimal place. -/
def round1 (q : ℚ) : ℚ :=
  ((jsRound (q * 10) : ℤ) : ℚ) / 10

/-- `updatePGListingRating` of `src/models/Review.js`: aggregate the average
rating and count of all reviews whose `pgListing` is the given id; if any
exist, write the rounded average and the count onto the listing, otherwise
reset both to 0. -/
def updatePGListingRating (pgListingId : String) (reviews : List Review)
    (listings : List Listing) : List Listing :=
  let stats := reviews.filter (fun r => r.pgListing == pgListingId)
  if stats.isEmpty then
    listings.map fun l =>
      if l.id == pgListingId then { l with rating := 0, reviewCount := 0 }
      else l
  else
    let avg := (stats.map (fun r => r.rating)).sum / (stats.length : ℚ)
    listings.map fun l =>
      if l.id == pgListingId then
        { l with rating := round1 avg, reviewCount := (stats.length : ℚ) }
      else l

/-- Outcome of `POST /api/reviews`. -/
inductive ReviewCreateResult where
  | conflict
  | invalid
  | created (r : Review)
deriving Repr, DecidableEq

/-- The review-schema validators `save()` runs: rating required, 1–5. -/
def validReview (r : Review) : Bool :=
  decide (1 ≤ r.rating) && decide (r.rating ≤ 5)

/-- The `POST /api/reviews` handler: first look for an existing review by the
same `(user, pgListing)` pair and answer the duplicate error without touching
anything; otherwise save the new review, whose `post('save')` hook runs the
rating aggregator.  Returns the response together with the review and listing
stores after the request. -/
def createReview (userId pgId : String) (rating : ℚ) (title comment : String)
    (rid : String) (reviews : List Review) (listings : List Listing) :
    ReviewCreateResult × List Review × List Listing :=
  if reviews.any (fun r => r.user == userId && r.pgListing == pgId) then
    (.conflict, reviews, listings)
  else
    let r : Review :=
      { id := rid, user := userId, pgListing := pgId, rating := rating,
        title := title, comment := comment }
    if validReview r then
      let reviews' := reviews ++ [r]
      (.created r, reviews', updatePGListingRating pgId reviews' listings)
    else (.invalid, reviews, listings)

/-- Outcome of `PUT /api/reviews/:id` and `DELETE /api/reviews/:id`. -/
inductive ReviewMutResult where
  | notFound
  | forbidden
  | ok
deriving Repr, DecidableEq

/-- The `PUT /api/reviews/:id` handler: author-only; each field falls back to
the old value when absent or falsy (`req.body.rating || review.rating`); the
`save()` fires the `post('save')` hook, which recomputes the listing's
rating. -/
def updateReview (reviewId requesterId : String) (newRating? : Option ℚ)
    (reviews : List Review) (listings : List Listing) :
    ReviewMutResult × List Review × List Listing :=
  match reviews.find? (fun r => r.id == reviewId) with
  | none => (.notFound, reviews, listings)
  | some r =>
      if !(r.user == requesterId) then (.forbidden, reviews, listings)
      else
        let newRating :=
          match newRating? with
          | some x => if x == 0 then r.rating else x
          | none => r.rating
        let r' := { r with rating := newRating }
        if validReview r' then
          let reviews' := reviews.map fun x => if x.id == reviewId then r' else x
          (.ok, reviews', updatePGListingRating r.pgListing reviews' listings)
        else (.forbidden, reviews, listings)

/-- The `DELETE /api/reviews/:id` handler: author or admin may delete; the
document is removed with `await review.deleteOne()`.  The rating-recompute
hooks of `Review.js` are registered for `save`, `findOneAndDelete` and
`findOneAndUpdate`; `Document.prototype.deleteOne` fires none of those, so
the listing store is left untouched by a delete. -/
def deleteReview (reviewId requesterId requesterRole : String)
    (reviews : List Review) (listings : List Listing) :
    ReviewMutResult × List Review × List Listing :=
  match reviews.find? (fun r => r.id == reviewId) with
  | none => (.notFound, reviews, listings)
  | some r =>
      if !(r.user == requesterId) && !(requesterRole == "admin") then
        (.forbidden, reviews, listings)
      else
        (.ok, reviews.eraseP (fun x => x.id == reviewId), listings)

/-! ## Test fixtures -/

/-- A published listing as stored by the backend (note `slug = none`: the
schema has no slug path). -/
def royal : Listing :=
  { id := "aaaaaaaaaaaaaaaaaaaaaaaa", name := "Royal Boys PG",
    city := "Chandigarh", locality := "Sector 61", address := "Phase 7",
    price := 8000, published := true }

/-- A listing whose `slug` field happens to equal `royal`'s id — used to show
that the exact-id strategy wins over a looser match even when the looser
match would also succeed and sits earlier in the store. -/
def slugThief : Listing :=
  { id := "bbbbbbbbbbbbbbbbbbbbbbbb", slug := some "aaaaaaaaaaaaaaaaaaaaaaaa",
    name := "Slug Thief PG", city := "Chandigarh", published := true }

/-- An unpublished listing. -/
def hiddenPg : Listing :=
  { id := "cccccccccccccccccccccccc", name := "Hidden PG",
    city := "Chandigarh", published := false }

/-! ## Helper lemmas -/

lemma find?_id_eq_of_mem_nodup {l : Listing} {db : List Listing}
    (hmem : l ∈ db) (hnd : (db.map Listing.id).Nodup) :
    db.find? (fun x => x.id == l.id) = some l := by
  induction db with
  | nil => simp at hmem
  | cons a as ih =>
    rw [List.map_cons, List.nodup_cons] at hnd
    rcases List.mem_cons.mp hmem with rfl | hmem'
    · exact List.find?_cons_of_pos _ (by simp)
    · have hne : (a.id == l.id) = false := by
        refine beq_eq_false_iff_ne.mpr fun he => hnd.1 ?_
        exact he ▸ List.mem_map_of_mem Listing.id hmem'
      rw [List.find?_cons_of_neg _ (by simp [hne]), ih hmem' hnd.2]

lemma mem_insertLe {le : α → α → Bool} {a x : α} {l : List α} :
    x ∈ insertLe le a l ↔ x = a ∨ x ∈ l := by
  induction l with
  | nil => simp [insertLe]
  | cons b bs ih =>
    unfold insertLe
    by_cases h : le a b = true
    · rw [if_pos h]; simp
    · rw [if_neg h]
      simp only [List.mem_cons, ih]
      tauto

lemma mem_sortWith {le : α → α → Bool} {x : α} {l : List α} :
    x ∈ sortWith le l ↔ x ∈ l := by
  induction l with
  | nil => simp [sortWith]
  | cons b bs ih =>
    simp only [sortWith, List.foldr_cons] at ih ⊢
    rw [mem_insertLe, ih, List.mem_cons]

lemma dropWhile_eq_self_of_not {p : Char → Bool} {l : List Char}
    (h : ∀ c ∈ l, p c = false) : l.dropWhile p = l := by
  cases l with
  | nil => rfl
  | cons c cs =>
    rw [List.dropWhile_cons, h c (List.mem_cons_self c cs)]
    simp

lemma not_space_of_hex {c : Char} (h : isHexDigit c = true) :
    isJsSpace c = false := by
  by_contra hs
  have hs' : isJsSpace c = true := by
    cases hval : isJsSpace c
    · exact absurd hval hs
    · rfl
  simp only [isJsSpace, Bool.or_eq_true, beq_iff_eq] at hs'
  rcases hs' with ((((rfl | rfl) | rfl) | rfl) | rfl) | rfl <;>
    exact absurd h (by decide)

lemma jsTrim_eq_self_of_hex {s : String} (h : s.data.all isHexDigit = true) :
    jsTrim s = s := by
  rw [List.all_eq_true] at h
  have h1 : s.data.dropWhile isJsSpace = s.data :=
    dropWhile_eq_self_of_not fun c hc => not_space_of_hex (h c hc)
  have h2 : s.data.reverse.dropWhile isJsSpace = s.data.reverse :=
    dropWhile_eq_self_of_not fun c hc =>
      not_space_of_hex (h c (List.mem_reverse.mp hc))
  cases s with
  | mk data => simp [jsTrim, h1, h2]

/-! ## Claims -/

/-- C1: the resolver applies its four strategies in the fixed order
exact-id, slug, name, broad, returning the first hit; strategy 1 runs iff the
input is a 24-character hexadecimal identifier, so (over a store with
well-formed, distinct ids) an exact id match is always returned in preference
to any looser match, and a non-identifier input can never be answered by
strategy 1. -/
theorem resolver_prefers_exact_id (input : String) (db : List Listing)
    (hids : ∀ l ∈ db, is24Hex l.id = true)
    (hnd : (db.map Listing.id).Nodup) :
    (∀ l ∈ db, l.id = jsTrim input →
      getPgById input true db = .found l .objectId) ∧
    (is24Hex (jsTrim input) = false →
      ∀ l, getPgById input true db ≠ .found l .objectId) := by
  constructor
  · intro l hmem hid
    have h24 : is24Hex (jsTrim input) = true := hid ▸ hids l hmem
    have hinv : (input == "" || input == "undefined" || input == "null")
        = false := by
      have hch : ¬(input = "" ∨ input = "undefined" ∨ input = "null") := by
        rintro (rfl | rfl | rfl) <;> revert h24 <;> decide
      push_neg at hch
      simp [hch.1, hch.2.1, hch.2.2]
    have hfind : db.find? (fun x => x.id == jsTrim input) = some l :=
      hid ▸ find?_id_eq_of_mem_nodup hmem hnd
    simp [getPgById, hinv, h24, hfind]
  · intro h24 l heq
    simp only [getPgById, h24] at heq
    repeat' split at heq
    all_goals simp_all

/-- Witness for C1 at a concrete store: the input is `royal`'s id, and the
store also holds (earlier!) a listing whose slug equals that id; the resolver
still answers with `royal` via the exact-id strategy. -/
theorem resolver_prefers_exact_id_witness :
    (∀ l ∈ [slugThief, royal], is24Hex l.id = true) ∧
    ([slugThief, royal].map Listing.id).Nodup ∧
    getPgById "aaaaaaaaaaaaaaaaaaaaaaaa" true [slugThief, royal] =
      .found royal .objectId :=
  ⟨by decide, by decide,
    (resolver_prefers_exact_id "aaaaaaaaaaaaaaaaaaaaaaaa"
      [slugThief, royal] (by decide) (by decide)).1 royal (by decide)
      (by decide)⟩

/-- C5 (evidence for the code bug): the strategy-3 pattern built for
`"royal boys pg"` is `^royal[-s]?boys[-s]?pg$` — the replacement string
`'[-\s]?'` loses its backslash in the JavaScript string literal — so it
cannot match the stored name `"Royal Boys PG"` (the spaces in the name are
not matched by `[-s]?`).  The request then falls through to strategy 4,
whose raw `_id` branch cannot cast `"royal boys pg"`, and the handler
answers 500.  The pattern does match hyphenated or `s`-joined spellings of
the name, which is what the accidental `[-s]?` class allows. -/
theorem strategy3_cannot_match_spaced_names :
    patMatch (strat3Pattern "royal boys pg") "Royal Boys PG".data = false ∧
    getPgById "royal boys pg" true [royal] = .serverError ∧
    patMatch (strat3Pattern "royal boys pg") "Royal-Boys-PG".data = true ∧
    patMatch (strat3Pattern "royal boys pg") "RoyalsBoysPG".data = true := by
  decide

/-- The body of the C4 example create request. -/
def royalBody : ListingBody :=
  { name? := some "Royal Boys PG", price? := some 8000,
    city? := some "Chandigarh", locality? := some "Sector 61",
    address? := some "Phase 7" }

/-- The listing that `POST /api/pg` stores for `royalBody` (the handler's
phone-number defaults apply, and no slug is persisted). -/
def royalCreated : Listing :=
  { royal with ownerPhone := "9315058665", contactPhone := "9315058665" }

/-- C4 (evidence for the code bug): creating a listing named
`"Royal Boys PG"` derives the slug `"royal-boys-pg"`, but the stored
document has no slug (the `PGListing` schema declares no `slug` path, so
strict mode strips it), and a subsequent request for `"royal-boys-pg"` is
not answered via strategy 2 — it misses strategies 1–3 and blows up in
strategy 4's `_id` cast, answering 500. -/
theorem created_listing_loses_slug :
    genSlug "Royal Boys PG" = "royal-boys-pg" ∧
    createPg royalBody "aaaaaaaaaaaaaaaaaaaaaaaa" 0 true =
      .created royalCreated ∧
    royalCreated.slug = none ∧
    getPgById "royal-boys-pg" true [royalCreated] = .serverError := by
  decide

/-- C6 (counterexample): a harmless-looking input that matches nothing does
**not** produce NotFound — strategy 4's raw `_id` equality cannot cast
`"zzz"`, the query rejects, and the handler answers 500 Server error. -/
theorem resolver_500_on_uncastable_miss :
    getPgById "zzz" true [royal] = .serverError ∧
    ResolveResult.serverError ≠ .notFound := by decide

/-- C6 (amended): an input that is a well-formed 24-hex identifier but
matches no listing under any strategy is answered with NotFound — a result
distinct from the database-down and invalid-argument errors.  (For inputs
that cannot be cast to a store identifier the resolver instead answers 500,
see the counterexample.) -/
theorem resolver_notFound_for_unmatched_hex_id (id : String)
    (db : List Listing) (h24 : is24Hex id = true)
    (h1 : db.find? (fun l => l.id == id) = none)
    (h2 : db.find? (fun l => l.slug == some id) = none)
    (h3 : db.find? (fun l => patMatch (strat3Pattern id) l.name.data) = none)
    (h4 : db.find? (fun l => broadPred id l) = none) :
    getPgById id true db = .notFound ∧
    ResolveResult.notFound ≠ .dbDown ∧
    ResolveResult.notFound ≠ .invalidArg := by
  have hhex : id.data.all isHexDigit = true := by
    have h := h24
    simp only [is24Hex, Bool.and_eq_true] at h
    exact h.2
  have htrim : jsTrim id = id := jsTrim_eq_self_of_hex hhex
  have hinv : (id == "" || id == "undefined" || id == "null") = false := by
    have hne : ¬(id = "" ∨ id = "undefined" ∨ id = "null") := by
      rintro (rfl | rfl | rfl) <;> revert h24 <;> decide
    push_neg at hne
    simp [hne.1, hne.2.1, hne.2.2]
  have hcast : castableObjectId id = true := by
    simp [castableObjectId, objectIdValid, h24]
  refine ⟨?_, by decide, by decide⟩
  simp [getPgById, hinv, htrim, h24, h1, h2, h3, h4, hcast]

/-- Witness for C6 at a concrete input: a syntactically valid but nonexistent
24-hex identifier resolves to NotFound. -/
theorem resolver_notFound_for_unmatched_hex_id_witness :
    is24Hex "ffffffffffffffffffffffff" = true ∧
    getPgById "ffffffffffffffffffffffff" true [royal] = .notFound :=
  ⟨by decide,
    (resolver_notFound_for_unmatched_hex_id "ffffffffffffffffffffffff" [royal]
      (by decide) (by decide) (by decide) (by decide) (by decide)).1⟩

/-- C2 (counterexample): `admin='1'` is truthy in JavaScript, but the handler
compares `admin !== 'true'`, so the `published: true` filter is **still**
applied and the unpublished listing stays hidden; only the exact string
`'true'` suppresses the filter. -/
theorem truthy_admin_does_not_expose_unpublished :
    getPgList { admin? := some "1" } true [hiddenPg] =
      .ok [] ⟨1, 0, 0, 10, false, false⟩ ∧
    getPgList { admin? := some "true" } true [hiddenPg] =
      .ok [hiddenPg] ⟨1, 1, 1, 10, false, false⟩ := by decide

/-- C2 (amended): whenever the `admin` parameter is not the exact string
`'true'` — in particular for every default (non-admin) request — the query
gets the `published: true` filter, and no unpublished listing can appear in
the results. -/
theorem default_listing_results_published_only (q : ListQuery)
    (db data : List Listing) (p : Pagination)
    (hadmin : q.admin? ≠ some "true")
    (h : getPgList q true db = .ok data p) :
    ∀ l ∈ data, l.published = true := by
  simp only [getPgList, Bool.not_true, Bool.false_eq_true, if_false,
    ListResponse.ok.injEq] at h
  obtain ⟨hdata, -⟩ := h
  intro l hl
  rw [← hdata] at hl
  have hl2 := List.mem_of_mem_drop (List.mem_of_mem_take hl)
  have hl3 := List.mem_filter.mp (mem_sortWith.mp hl2)
  have hmatch := hl3.2
  simp only [matchesQuery, Bool.and_eq_true] at hmatch
  have hpub := hmatch.2
  have hne : (q.admin? == some "true") = false := beq_eq_false_iff_ne.mpr hadmin
  rw [hne] at hpub
  simpa using hpub

/-- Witness for C2: a default request (no `admin` parameter) over a store
with one published and one unpublished listing returns only the published
one, and every returned listing is published. -/
theorem default_listing_results_published_only_witness :
    (({} : ListQuery).admin? ≠ some "true") ∧
    getPgList {} true [royal, hiddenPg] = .ok [royal] ⟨1, 1, 1, 10, false, false⟩ ∧
    (∀ l ∈ ([royal] : List Listing), l.published = true) :=
  ⟨by decide, by decide,
    default_listing_results_published_only {} [royal, hiddenPg] [royal]
      ⟨1, 1, 1, 10, false, false⟩ (by decide) (by decide)⟩

/-- C10: the listing list endpoint is on the API-key middleware's public
allow list, so two `GET /api/pg` requests with the same query parameters
(including `admin='true'`) get identical responses no matter which
credential is supplied — absent, wrong, or right — and the response is
exactly the unauthenticated handler result: exposing unpublished listings
via `admin='true'` requires no authentication or authorization. -/
theorem pg_list_response_credential_independent (q : ListQuery)
    (k1 k2 : Option String) (ck1 ck2 : String) (connected : Bool)
    (db : List Listing) :
    handlePgList q k1 ck1 connected db = handlePgList q k2 ck2 connected db ∧
    handlePgList q k1 ck1 connected db = getPgList q connected db := by
  have hpub : isPublicRoute "/api/pg" = true := by decide
  constructor <;> simp [handlePgList, apiKeyGate, hpub]

lemma le_ceilNat_mul (t l : ℕ) (hl : 0 < l) : t ≤ ceilNat t l * l := by
  have h := le_smul_ceilDiv (b := t) hl
  rw [smul_eq_mul, Nat.ceilDiv_eq_add_pred_div] at h
  simpa [ceilNat, Nat.mul_comm] using h

lemma ceilNat_mul_lt (t l : ℕ) (hl : 0 < l) : ceilNat t l * l < t + l := by
  have h : ceilNat t l * l ≤ t + l - 1 := Nat.div_mul_le_self _ _
  omega

lemma ceilNat_cast (t l : ℕ) (hl : 0 < l) :
    (ceilNat t l : ℤ) = ⌈(t : ℚ) / (l : ℚ)⌉ := by
  have h1 := le_ceilNat_mul t l hl
  have h2 := ceilNat_mul_lt t l hl
  have hl' : (0 : ℚ) < (l : ℚ) := by exact_mod_cast hl
  symm
  rw [Int.ceil_eq_iff]
  constructor
  · have h2' : ((ceilNat t l : ℚ)) * l < t + l := by exact_mod_cast h2
    rw [show ((ceilNat t l : ℤ) : ℚ) - 1 = ((ceilNat t l : ℚ) - 1) by push_cast; ring,
      sub_lt_iff_lt_add, show (t : ℚ) / l + 1 = (t + l) / l by field_simp,
      lt_div_iff₀ hl']
    exact h2'
  · rw [div_le_iff₀ hl']
    exact_mod_cast h1

/-- C8: for every filter, 1-indexed page and positive limit, the listing
query skips `(page-1)*limit` documents of the sorted matching set, returns at
most `limit` items, and reports `totalItems` = the count over the same
filter, `itemsPerPage = limit`, `totalPages = ceil(totalItems/limit)` (both
as the integer formula `(t+l-1)/l` characterized by its two bounding
inequalities and as the rational ceiling), `hasNextPage = (page <
totalPages)` and `hasPrevPage = (page > 1)`. -/
theorem getPgList_pagination_correct (q : ListQuery) (db : List Listing)
    (hl : 0 < q.limit) :
    ∃ data pag, getPgList q true db = .ok data pag ∧
      data = ((sortWith (sortLE q) (db.filter (matchesQuery q))).drop
        ((q.page - 1) * q.limit)).take q.limit ∧
      data.length ≤ q.limit ∧
      pag.currentPage = q.page ∧
      pag.totalItems = (db.filter (matchesQuery q)).length ∧
      pag.itemsPerPage = q.limit ∧
      pag.totalPages = ceilNat pag.totalItems q.limit ∧
      pag.totalItems ≤ pag.totalPages * q.limit ∧
      pag.totalPages * q.limit < pag.totalItems + q.limit ∧
      (pag.totalPages : ℤ) = ⌈(pag.totalItems : ℚ) / (q.limit : ℚ)⌉ ∧
      pag.hasNextPage = decide (q.page < pag.totalPages) ∧
      pag.hasPrevPage = decide (1 < q.page) := by
  refine ⟨((sortWith (sortLE q) (db.filter (matchesQuery q))).drop
      ((q.page - 1) * q.limit)).take q.limit,
    { currentPage := q.page
      totalPages := ceilNat (db.filter (matchesQuery q)).length q.limit
      totalItems := (db.filter (matchesQuery q)).length
      itemsPerPage := q.limit
      hasNextPage :=
        decide (q.page < ceilNat (db.filter (matchesQuery q)).length q.limit)
      hasPrevPage := decide (q.page > 1) },
    rfl, rfl, ?_, rfl, rfl, rfl, rfl, ?_, ?_, ?_, rfl, rfl⟩
  · simp only [List.length_take]
    exact Nat.min_le_left _ _
  · exact le_ceilNat_mul _ _ hl
  · exact ceilNat_mul_lt _ _ hl
  · exact ceilNat_cast _ _ hl

/-- 25 published listings with distinct creation times (the concrete store
of the pagination example). -/
def db25 : List Listing :=
  (List.range 25).map fun i =>
    { id := "", name := "PG", city := "Chandigarh", published := true,
      createdAt := i }

/-- The data list of a list response (empty for error responses). -/
def respData : ListResponse → List Listing
  | .ok d _ => d
  | _ => []

/-- The pagination block of a list response, when there is one. -/
def respPag : ListResponse → Option Pagination
  | .ok _ p => some p
  | _ => none

/-- Witness for C8: the spec's 25-listing example with `limit=10` — page 1
returns 10 items with `totalPages=3, hasNextPage, ¬hasPrevPage`; page 3
returns 5 items with `¬hasNextPage, hasPrevPage`. -/
theorem getPgList_pagination_correct_witness :
    (0 < (10 : ℕ) ∧
      ∃ data pag, getPgList { page := 1, limit := 10 } true db25 =
          .ok data pag ∧
        data = ((sortWith (sortLE { page := 1, limit := 10 })
          (db25.filter (matchesQuery { page := 1, limit := 10 }))).drop
            ((1 - 1) * 10)).take 10 ∧
        data.length ≤ 10 ∧
        pag.currentPage = 1 ∧
        pag.totalItems =
          (db25.filter (matchesQuery { page := 1, limit := 10 })).length ∧
        pag.itemsPerPage = 10 ∧
        pag.totalPages = ceilNat pag.totalItems 10 ∧
        pag.totalItems ≤ pag.totalPages * 10 ∧
        pag.totalPages * 10 < pag.totalItems + 10 ∧
        (pag.totalPages : ℤ) = ⌈(pag.totalItems : ℚ) / (10 : ℚ)⌉ ∧
        pag.hasNextPage = decide (1 < pag.totalPages) ∧
        pag.hasPrevPage = decide (1 < 1)) ∧
    (respData (getPgList { page := 1, limit := 10 } true db25)).length = 10 ∧
    respPag (getPgList { page := 1, limit := 10 } true db25) =
      some ⟨1, 3, 25, 10, true, false⟩ ∧
    (respData (getPgList { page := 3, limit := 10 } true db25)).length = 5 ∧
    respPag (getPgList { page := 3, limit := 10 } true db25) =
      some ⟨3, 3, 25, 10, false, true⟩ :=
  ⟨⟨by decide, getPgList_pagination_correct { page := 1, limit := 10 } db25
      (by decide)⟩,
    by decide, by decide, by decide, by decide⟩

/-- An existing review by user `u1` for `royal`. -/
def rev1 : Review :=
  { id := "r1", user := "u1", pgListing := "aaaaaaaaaaaaaaaaaaaaaaaa",
    rating := 4, title := "Nice", comment := "Good stay" }

/-- C7: when a `(user, listing)` pair already has a review, a second create
attempt for the same pair is answered with the duplicate error and leaves
both stores untouched — in particular the listing's rating and reviewCount
are unchanged and the aggregator never runs. -/
theorem duplicate_review_rejected (userId pgId : String) (rating : ℚ)
    (title comment rid : String) (reviews : List Review)
    (listings : List Listing)
    (hdup : ∃ r ∈ reviews, r.user = userId ∧ r.pgListing = pgId) :
    createReview userId pgId rating title comment rid reviews listings =
      (.conflict, reviews, listings) := by
  have hany :
      reviews.any (fun r => r.user == userId && r.pgListing == pgId) = true := by
    rw [List.any_eq_true]
    obtain ⟨r, hr, hu, hp⟩ := hdup
    exact ⟨r, hr, by simp [hu, hp]⟩
  simp [createReview, hany]

/-- Witness for C7: a second review by `u1` for the same listing is rejected
with the duplicate error and the listing (rating 0, reviewCount 0 here) is
untouched. -/
theorem duplicate_review_rejected_witness :
    (∃ r ∈ [rev1], r.user = "u1" ∧
      r.pgListing = "aaaaaaaaaaaaaaaaaaaaaaaa") ∧
    createReview "u1" "aaaaaaaaaaaaaaaaaaaaaaaa" 5 "Again" "Twice" "r9"
      [rev1] [royal] = (.conflict, [rev1], [royal]) :=
  ⟨by decide,
    duplicate_review_rejected "u1" "aaaaaaaaaaaaaaaaaaaaaaaa" 5 "Again"
      "Twice" "r9" [rev1] [royal] (by decide)⟩

/-- `royal` as the aggregator would leave it after three reviews. -/
def royalRated : Listing := { royal with rating := 4, reviewCount := 3 }

/-- `royalRated` after a client writes rating 2 / reviewCount 7 through
`PUT /api/pg/:id`. -/
def royalTampered : Listing := { royalRated with rating := 2, reviewCount := 7 }

/-- An update body supplying only `rating` and `reviewCount`. -/
def tamperBody : ListingBody := { rating? := some 2, reviewCount? := some 7 }

/-- C9 (counterexample): the PUT allow list contains `rating` and
`reviewCount`, so a client update overwrites the aggregator-owned fields of
a listing that has reviews (reviewCount 3 before, 7 after; rating 4 before,
2 after). -/
theorem update_overwrites_aggregator_fields :
    royalRated.reviewCount = 3 ∧ royalRated.rating = 4 ∧
    updatePg "aaaaaaaaaaaaaaaaaaaaaaaa" tamperBody true [royalRated] =
      .updated royalTampered [royalTampered] ∧
    royalTampered.rating = 2 ∧ royalTampered.reviewCount = 7 := by decide

/-- C9 (amended): client-supplied `rating` and `reviewCount` values are
honoured, not ignored: an update whose body carries them stores exactly those
values (when the update validators accept them), and a create stores
`rating = body.rating || 0` and `reviewCount = body.reviewCount || 0`. -/
theorem client_supplied_rating_fields_persist (b : ListingBody)
    (lid newId : String) (now : ℕ) (db db' : List Listing) (u s : Listing)
    (r c : ℚ) (hr : b.rating? = some r) (hc : b.reviewCount? = some c) :
    (updatePg lid b true db = .updated u db' →
      u.rating = r ∧ u.reviewCount = c) ∧
    (createPg b newId now true = .created s →
      s.rating = r ∧ s.reviewCount = c) := by
  constructor
  · intro h
    simp only [updatePg, Bool.not_true, Bool.false_eq_true, if_false] at h
    split at h
    · cases h
    · split at h
      · cases h
      · split at h
        · cases h
          simp [applyUpdateData, hr, hc]
        · cases h
  · intro h
    simp only [createPg, Bool.not_true, Bool.false_eq_true, if_false] at h
    split at h
    · cases h
    · split at h
      · cases h
      · split at h
        · cases h
          simp [hr, hc]
        · cases h

/-- Witness for C9: the concrete tamper body from the counterexample run
through the amended theorem. -/
theorem client_supplied_rating_fields_persist_witness :
    tamperBody.rating? = some 2 ∧ tamperBody.reviewCount? = some 7 ∧
    royalTampered.rating = 2 ∧ royalTampered.reviewCount = 7 := by
  have h :=
    (client_supplied_rating_fields_persist tamperBody
      "aaaaaaaaaaaaaaaaaaaaaaaa" "x" 0 [royalRated] [royalTampered]
      royalTampered royal 2 7 rfl rfl).1 (by decide)
  exact ⟨rfl, rfl, h.1, h.2⟩

/-- The reviews of the C3 scenario (all for `royal`). -/
def c3r (i u : String) (x : ℚ) : Review :=
  { id := i, user := u, pgListing := "aaaaaaaaaaaaaaaaaaaaaaaa", rating := x,
    title := "t", comment := "c" }

/-- The review-route state after each step of the C3 scenario: three creates
(ratings 4, 5, 3) for `royal`, then the author deletes the rating-3 review. -/
def c3s1 := createReview "u1" "aaaaaaaaaaaaaaaaaaaaaaaa" 4 "t" "c" "r1" [] [royal]
def c3s2 := createReview "u2" "aaaaaaaaaaaaaaaaaaaaaaaa" 5 "t" "c" "r2" c3s1.2.1 c3s1.2.2
def c3s3 := createReview "u3" "aaaaaaaaaaaaaaaaaaaaaaaa" 3 "t" "c" "r3" c3s2.2.1 c3s2.2.2
def c3s4 := deleteReview "r3" "u3" "user" c3s3.2.1 c3s3.2.2

/-- C3 (evidence for the code bug): creating reviews rated 4, 5, 3 drives the
listing to rating 4.0 / reviewCount 3 as specified (each save fires the
aggregation hook), but the delete route runs `review.deleteOne()`, which
fires none of the registered hooks (`save`, `findOneAndDelete`,
`findOneAndUpdate`): the review is removed, yet the listing keeps rating 4.0
and reviewCount 3 — not the specified rating 4.5 / reviewCount 2, which is
what the aggregator would compute over the remaining ratings 4 and 5 (last
conjunct). -/
theorem review_delete_skips_rating_recompute :
    (c3s3.2.2.map fun l => (l.rating, l.reviewCount)) = [(4, 3)] ∧
    c3s4.1 = .ok ∧
    (c3s4.2.1.map Review.id) = ["r1", "r2"] ∧
    (c3s4.2.2.map fun l => (l.rating, l.reviewCount)) = [(4, 3)] ∧
    round1 ((4 + 5 : ℚ) / 2) = 9 / 2 := by
  have h1 : c3s1 =
      (ReviewCreateResult.created (c3r "r1" "u1" 4), [c3r "r1" "u1" 4],
        [{ royal with rating := 4, reviewCount := 1 }]) := by
    simp +decide [c3s1, createReview, validReview, updatePGListingRating,
      c3r, royal, round1, jsRound, ratFloor]
    norm_num
  have h2 : c3s2 =
      (ReviewCreateResult.created (c3r "r2" "u2" 5),
        [c3r "r1" "u1" 4, c3r "r2" "u2" 5],
        [{ royal with rating := 9 / 2, reviewCount := 2 }]) := by
    rw [c3s2, h1]
    simp +decide [createReview, validReview, updatePGListingRating, c3r,
      royal, round1, jsRound, ratFloor]
    norm_num
  have h3 : c3s3 =
      (ReviewCreateResult.created (c3r "r3" "u3" 3),
        [c3r "r1" "u1" 4, c3r "r2" "u2" 5, c3r "r3" "u3" 3],
        [{ royal with rating := 4, reviewCount := 3 }]) := by
    rw [c3s3, h2]
    simp +decide [createReview, validReview, updatePGListingRating, c3r,
      royal, round1, jsRound, ratFloor]
    norm_num
  have h4 : c3s4 =
      (ReviewMutResult.ok, [c3r "r1" "u1" 4, c3r "r2" "u2" 5],
        [{ royal with rating := 4, reviewCount := 3 }]) := by
    rw [c3s4, h3]
    simp +decide [deleteReview, c3r, royal]
  refine ⟨?_, ?_, ?_, ?_, ?_⟩
  · rw [h3]; decide
  · rw [h4]
  · rw [h4]; decide
  · rw [h4]; decide
  · norm_num [round1, jsRound, ratFloor]

end EassyToRent
